import Mathlib

/-!
# Verification of the teams-openphone-sync call-to-presence engine

Shallow embedding of `src/server.js`: the OpenPhone webhook signature
verifier (`verifyOpenPhoneSignature`), the identity mapping
(`getTeamsUserFromOpenPhoneUser`), the active-call tracker (a JS `Map`
used inline by the webhook handler), and the webhook handler for
`POST /webhook/openphone` itself.

Strings are modelled as lists of byte values (`List Nat`, each < 256;
all data relevant here is ASCII). Node library functions the source
calls (`crypto.createHmac('sha256', ...)`, `Buffer.from(-, 'base64')`,
`digest('base64')`, `crypto.timingSafeEqual`, `JSON.parse` /
`JSON.stringify`) are modelled faithfully below; `timingSafeEqual`
throws on length mismatch, so fallible operations return `Except`.
-/

/-- Byte values of an ASCII string literal. -/
def bytes (s : String) : List Nat := s.data.map Char.toNat

/-! ## SHA-256 (the algorithm behind Node's `crypto.createHmac('sha256', ...)`) -/

/-- Truncation to a 32-bit word. -/
def w32 (n : Nat) : Nat := n % 4294967296

/-- Right rotation of a 32-bit word (argument assumed < 2^32, 0 < n < 32). -/
def rotr32 (x n : Nat) : Nat := w32 (x / 2 ^ n + x * 2 ^ (32 - n))

/-- Logical right shift. -/
def shr32 (x n : Nat) : Nat := x / 2 ^ n

/-- The eight-word SHA-256 working state. -/
structure Hash8 where
  a : Nat
  b : Nat
  c : Nat
  d : Nat
  e : Nat
  f : Nat
  g : Nat
  h : Nat

/-- SHA-256 round constants (FIPS 180-4, in decimal). -/
def sha256K : List Nat :=
  [1116352408, 1899447441, 3049323471, 3921009573, 961987163,
   1508970993, 2453635748, 2870763221, 3624381080, 310598401,
   607225278, 1426881987, 1925078388, 2162078206, 2614888103,
   3248222580, 3835390401, 4022224774, 264347078, 604807628,
   770255983, 1249150122, 1555081692, 1996064986, 2554220882,
   2821834349, 2952996808, 3210313671, 3336571891, 3584528711,
   113926993, 338241895, 666307205, 773529912, 1294757372,
   1396182291, 1695183700, 1986661051, 2177026350, 2456956037,
   2730485921, 2820302411, 3259730800, 3345764771, 3516065817,
   3600352804, 4094571909, 275423344, 430227734, 506948616,
   659060556, 883997877, 958139571, 1322822218, 1537002063,
   1747873779, 1955562222, 2024104815, 2227730452, 2361852424,
   2428436474, 2756734187, 3204031479, 3329325298]

/-- SHA-256 initial state (FIPS 180-4, in decimal). -/
def sha256H0 : Hash8 :=
  ⟨1779033703, 3144134277, 1013904242, 2773480762,
   1359893119, 2600822924, 528734635, 1541459225⟩

def smallSigma0 (x : Nat) : Nat := rotr32 x 7 ^^^ rotr32 x 18 ^^^ shr32 x 3

def smallSigma1 (x : Nat) : Nat := rotr32 x 17 ^^^ rotr32 x 19 ^^^ shr32 x 10

def bigSigma0 (x : Nat) : Nat := rotr32 x 2 ^^^ rotr32 x 13 ^^^ rotr32 x 22

def bigSigma1 (x : Nat) : Nat := rotr32 x 6 ^^^ rotr32 x 11 ^^^ rotr32 x 25

/-- Big-endian bytes of a 32-bit word group. -/
def bytesToWords : List Nat → List Nat
  | a :: b :: c :: d :: rest => (((a * 256 + b) * 256 + c) * 256 + d) :: bytesToWords rest
  | _ => []

/-- Extend the 16 block words to the 64-word message schedule. -/
def extendSchedule (ws : List Nat) : List Nat :=
  (List.range 48).foldl
    (fun acc _ =>
      let n := acc.length
      acc ++ [w32 (smallSigma1 (acc.getD (n - 2) 0) + acc.getD (n - 7) 0 +
                   smallSigma0 (acc.getD (n - 15) 0) + acc.getD (n - 16) 0)]) ws

/-- One SHA-256 compression round; `kw` pairs the round constant with the
scheduled word. -/
def sha256Round (st : Hash8) (kw : Nat × Nat) : Hash8 :=
  let ch := (st.e &&& st.f) ^^^ ((st.e ^^^ 4294967295) &&& st.g)
  let maj := (st.a &&& st.b) ^^^ (st.a &&& st.c) ^^^ (st.b &&& st.c)
  let t1 := st.h + bigSigma1 st.e + ch + kw.1 + kw.2
  let t2 := bigSigma0 st.a + maj
  ⟨w32 (t1 + t2), st.a, st.b, st.c, w32 (st.d + t1), st.e, st.f, st.g⟩

/-- Compress one 64-byte block into the chaining state. -/
def sha256Block (st : Hash8) (block : List Nat) : Hash8 :=
  let sched := extendSchedule (bytesToWords block)
  let r := (sha256K.zip sched).foldl sha256Round st
  ⟨w32 (st.a + r.a), w32 (st.b + r.b), w32 (st.c + r.c), w32 (st.d + r.d),
   w32 (st.e + r.e), w32 (st.f + r.f), w32 (st.g + r.g), w32 (st.h + r.h)⟩

/-- `len` big-endian bytes of `n`. -/
def toBytesBE (len n : Nat) : List Nat :=
  (List.range len).map (fun i => n / 2 ^ (8 * (len - 1 - i)) % 256)

/-- Merkle–Damgård padding: 0x80, zeros to 56 mod 64, 8-byte bit length. -/
def sha256Pad (msg : List Nat) : List Nat :=
  msg ++ 128 :: List.replicate ((119 - msg.length % 64) % 64) 0 ++ toBytesBE 8 (8 * msg.length)

/-- Split into 64-byte blocks (fuelled; one unit of fuel per block, so
the input length always suffices). -/
def chunks64Go : Nat → List Nat → List (List Nat)
  | 0, _ => []
  | _, [] => []
  | n + 1, x :: xs => ((x :: xs).take 64) :: chunks64Go n ((x :: xs).drop 64)

/-- Split into 64-byte blocks. -/
def chunks64 (l : List Nat) : List (List Nat) := chunks64Go l.length l

/-- SHA-256 of a byte list, as 32 digest bytes. -/
def sha256 (msg : List Nat) : List Nat :=
  let fin := (chunks64 (sha256Pad msg)).foldl sha256Block sha256H0
  toBytesBE 4 fin.a ++ toBytesBE 4 fin.b ++ toBytesBE 4 fin.c ++ toBytesBE 4 fin.d ++
  toBytesBE 4 fin.e ++ toBytesBE 4 fin.f ++ toBytesBE 4 fin.g ++ toBytesBE 4 fin.h

/-- HMAC-SHA256 (RFC 2104) with 64-byte block size, as used by
`crypto.createHmac('sha256', key).update(msg).digest()`. -/
def hmacSha256 (key msg : List Nat) : List Nat :=
  let k0 := if 64 < key.length then sha256 key else key
  let kpad := k0 ++ List.replicate (64 - k0.length) 0
  sha256 ((kpad.map (fun b => b ^^^ 92)) ++ sha256 ((kpad.map (fun b => b ^^^ 54)) ++ msg))

/-! ## Base64 (Node `Buffer.from(-, 'base64')` and `digest('base64')`) -/

/-- The base64 alphabet, as a function from a 6-bit value to its ASCII code. -/
def b64Char (n : Nat) : Nat :=
  if n < 26 then 65 + n
  else if n < 52 then 71 + n
  else if n < 62 then n - 4
  else if n = 62 then 43
  else 47

/-- Standard base64 encoding with `=` padding (byte 61). -/
def base64Encode : List Nat → List Nat
  | a :: b :: c :: rest =>
      b64Char (a / 4) :: b64Char (a % 4 * 16 + b / 16) ::
      b64Char (b % 16 * 4 + c / 64) :: b64Char (c % 64) :: base64Encode rest
  | [a, b] => [b64Char (a / 4), b64Char (a % 4 * 16 + b / 16), b64Char (b % 16 * 4), 61]
  | [a] => [b64Char (a / 4), b64Char (a % 4 * 16), 61, 61]
  | [] => []

/-- Value of one base64 alphabet character; `none` for padding and
characters outside the alphabet (which Node's decoder skips). -/
def b64Val (c : Nat) : Option Nat :=
  if 65 ≤ c ∧ c ≤ 90 then some (c - 65)
  else if 97 ≤ c ∧ c ≤ 122 then some (c - 71)
  else if 48 ≤ c ∧ c ≤ 57 then some (c + 4)
  else if c = 43 then some 62
  else if c = 47 then some 63
  else none

/-- Pack a run of 6-bit values into bytes, dropping a trailing partial byte. -/
def b64Group : List Nat → List Nat
  | a :: b :: c :: d :: rest =>
      (a * 4 + b / 16) :: (b % 16 * 16 + c / 4) :: (c % 4 * 64 + d) :: b64Group rest
  | [a, b, c] => [a * 4 + b / 16, b % 16 * 16 + c / 4]
  | [a, b] => [a * 4 + b / 16]
  | _ => []

/-- `Buffer.from(s, 'base64')`: decode, ignoring non-alphabet characters. -/
def base64Decode (s : List Nat) : List Nat := b64Group (s.filterMap b64Val)

/-! ## Signature verification (`verifyOpenPhoneSignature`, src/server.js:86-115) -/

/-- JS `String.prototype.split(';')` on a byte string. -/
def splitOnSemi : List Nat → List (List Nat)
  | [] => [[]]
  | c :: rest =>
    if c = 59 then [] :: splitOnSemi rest
    else
      match splitOnSemi rest with
      | [] => [[c]]
      | f :: fs => (c :: f) :: fs

/-- `crypto.timingSafeEqual(Buffer.from(a), Buffer.from(b))`: throws a
`RangeError` when the byte lengths differ (modelled as `.error`),
otherwise compares for equality. -/
def timingSafeEqual (a b : List Nat) : Except Unit Bool :=
  if a.length = b.length then .ok (a == b) else .error ()

/-- JS string falsiness as used by `if (!signature || !secret)`:
`undefined` (absent) and the empty string are falsy. -/
def jsFalsyStr : Option (List Nat) → Bool
  | none => true
  | some s => s.isEmpty

/-- `verifyOpenPhoneSignature(payload, signature, secret)` from
src/server.js:86-115. Returns `.error ()` where the JS function throws
(`timingSafeEqual` on digests of different lengths). -/
def verifyOpenPhoneSignature (payload : List Nat) (signature : Option (List Nat))
    (secret : Option (List Nat)) : Except Unit Bool :=
  if jsFalsyStr signature || jsFalsyStr secret then
    .ok true
  else
    let fields := splitOnSemi (signature.getD [])
    if fields.length < 4 then .ok false
    else
      let timestamp := fields.getD 2 []
      let providedDigest := fields.getD 3 []
      let signedData := timestamp ++ 46 :: payload
      let signingKeyBinary := base64Decode (secret.getD [])
      let computedDigest := base64Encode (hmacSha256 signingKeyBinary signedData)
      timingSafeEqual providedDigest computedDigest

/-! ## JSON values, `JSON.parse` and `JSON.stringify`

`express.json()` gives the handler the *parsed* body; the handler then
re-serializes it with `JSON.stringify(req.body)` (src/server.js:121).
Both library functions are modelled here for the payloads relevant to
this service: objects, arrays, strings (with the common escapes),
integer numbers, booleans, null. -/

inductive JsonVal where
  | null : JsonVal
  | bool : Bool → JsonVal
  | num : Int → JsonVal
  | str : List Nat → JsonVal
  | arr : List JsonVal → JsonVal
  | obj : List (List Nat × JsonVal) → JsonVal

/-- JS property access `v[k]`. Reading a property of `undefined` or
`null` throws a `TypeError` (`.error`); on a non-object value the
property is `undefined`; on an object it is the first binding of the
key (parsed JSON objects bind each key once). -/
def jsGet : Option JsonVal → List Nat → Except Unit (Option JsonVal)
  | none, _ => .error ()
  | some .null, _ => .error ()
  | some (.obj fs), k => .ok ((fs.find? (fun p => p.1 == k)).map (·.2))
  | some _, _ => .ok none

/-- JS `===` against a string literal, as in `event.type === 'call.ringing'`. -/
def jsTypeIs (v : Option JsonVal) (lit : List Nat) : Bool :=
  match v with
  | some (.str s) => s == lit
  | _ => false

/-- SameValueZero, the JS `Map` key equality. Primitives compare by
value; objects and arrays compare by reference, and since every parsed
webhook body is a fresh object such keys never equal a stored key, so
they are modelled as never equal. -/
def sameValueZero : Option JsonVal → Option JsonVal → Bool
  | none, none => true
  | some .null, some .null => true
  | some (.bool a), some (.bool b) => a == b
  | some (.num a), some (.num b) => a == b
  | some (.str a), some (.str b) => a == b
  | _, _ => false

/-- Hex digit character code (lowercase), for `\u00xx` escapes. -/
def hexDigit (n : Nat) : Nat := if n < 10 then 48 + n else 87 + n

/-- `JSON.stringify` string escaping. -/
def jsonEscape : List Nat → List Nat
  | [] => []
  | c :: rest =>
    (if c = 34 then [92, 34]
     else if c = 92 then [92, 92]
     else if c = 8 then [92, 98]
     else if c = 9 then [92, 116]
     else if c = 10 then [92, 110]
     else if c = 12 then [92, 102]
     else if c = 13 then [92, 114]
     else if c < 32 then [92, 117, 48, 48, hexDigit (c / 16), hexDigit (c % 16)]
     else [c]) ++ jsonEscape rest

/-- Decimal digits of a natural number. -/
def natDec (n : Nat) : List Nat := (Nat.toDigits 10 n).map Char.toNat

/-- Decimal rendering of an integer. -/
def intDec : Int → List Nat
  | .ofNat n => natDec n
  | .negSucc n => 45 :: natDec (n + 1)

mutual

/-- `JSON.stringify` (no indentation, as called in src/server.js:121). -/
def stringifyJson : JsonVal → List Nat
  | .null => [110, 117, 108, 108]
  | .bool true => [116, 114, 117, 101]
  | .bool false => [102, 97, 108, 115, 101]
  | .num n => intDec n
  | .str s => 34 :: (jsonEscape s ++ [34])
  | .arr vs => 91 :: (stringifyElems vs ++ [93])
  | .obj fs => 123 :: (stringifyMembers fs ++ [125])
termination_by structural v => v

def stringifyElems : List JsonVal → List Nat
  | [] => []
  | [v] => stringifyJson v
  | v :: rest => stringifyJson v ++ 44 :: stringifyElems rest
termination_by structural l => l

def stringifyMembers : List (List Nat × JsonVal) → List Nat
  | [] => []
  | [(k, v)] => 34 :: (jsonEscape k ++ 34 :: 58 :: stringifyJson v)
  | (k, v) :: rest => 34 :: (jsonEscape k ++ 34 :: 58 :: stringifyJson v) ++ 44 :: stringifyMembers rest
termination_by structural l => l

end

/-- JSON whitespace. -/
def isWs (c : Nat) : Bool := c = 32 || c = 9 || c = 10 || c = 13

def skipWs : List Nat → List Nat
  | c :: rest => if isWs c then skipWs rest else c :: rest
  | [] => []

/-- Parse a JSON string body after the opening quote; returns the
content and the input after the closing quote. -/
def parseStringBody : List Nat → Option (List Nat × List Nat)
  | [] => none
  | c :: rest =>
    if c = 34 then some ([], rest)
    else if c = 92 then
      match rest with
      | 34 :: r2 => (parseStringBody r2).map (fun p => (34 :: p.1, p.2))
      | 92 :: r2 => (parseStringBody r2).map (fun p => (92 :: p.1, p.2))
      | 47 :: r2 => (parseStringBody r2).map (fun p => (47 :: p.1, p.2))
      | 110 :: r2 => (parseStringBody r2).map (fun p => (10 :: p.1, p.2))
      | 116 :: r2 => (parseStringBody r2).map (fun p => (9 :: p.1, p.2))
      | 114 :: r2 => (parseStringBody r2).map (fun p => (13 :: p.1, p.2))
      | _ => none
    else (parseStringBody rest).map (fun p => (c :: p.1, p.2))

/-- Parse a digit run; returns (value, digit count, rest). -/
def parseDigits : List Nat → Nat × Nat × List Nat
  | [] => (0, 0, [])
  | c :: rest =>
    if 48 ≤ c ∧ c ≤ 57 then
      let (v, n, r) := parseDigits rest
      ((c - 48) * 10 ^ n + v, n + 1, r)
    else (0, 0, c :: rest)

mutual

/-- `JSON.parse`, fuelled (fuel bounds the recursion depth; callers pass
more fuel than the input length, which always suffices). -/
def parseValue (fuel : Nat) (s : List Nat) : Option (JsonVal × List Nat) :=
  match fuel with
  | 0 => none
  | fuel + 1 =>
    match skipWs s with
    | [] => none
    | c :: rest =>
      if c = 34 then (parseStringBody rest).map (fun p => (.str p.1, p.2))
      else if c = 123 then
        match skipWs rest with
        | 125 :: r => some (.obj [], r)
        | r2 => (parseMembers fuel r2).map (fun p => (.obj p.1, p.2))
      else if c = 91 then
        match skipWs rest with
        | 93 :: r => some (.arr [], r)
        | r2 => (parseElems fuel r2).map (fun p => (.arr p.1, p.2))
      else if c = 116 then
        match rest with
        | 114 :: 117 :: 101 :: r => some (.bool true, r)
        | _ => none
      else if c = 102 then
        match rest with
        | 97 :: 108 :: 115 :: 101 :: r => some (.bool false, r)
        | _ => none
      else if c = 110 then
        match rest with
        | 117 :: 108 :: 108 :: r => some (.null, r)
        | _ => none
      else if c = 45 then
        match parseDigits rest with
        | (_, 0, _) => none
        | (v, _ + 1, r) => some (.num (-(v : Int)), r)
      else if 48 ≤ c ∧ c ≤ 57 then
        match parseDigits rest with
        | (v, n, r) => some (.num (((c - 48) * 10 ^ n + v : Nat) : Int), r)
      else none
termination_by structural fuel

def parseMembers (fuel : Nat) (s : List Nat) : Option (List (List Nat × JsonVal) × List Nat) :=
  match fuel with
  | 0 => none
  | fuel + 1 =>
    match skipWs s with
    | 34 :: rest =>
      match parseStringBody rest with
      | none => none
      | some (key, r1) =>
        match skipWs r1 with
        | 58 :: r2 =>
          match parseValue fuel r2 with
          | none => none
          | some (v, r3) =>
            match skipWs r3 with
            | 44 :: r4 => (parseMembers fuel r4).map (fun p => ((key, v) :: p.1, p.2))
            | 125 :: r4 => some ([(key, v)], r4)
            | _ => none
        | _ => none
    | _ => none
termination_by structural fuel

def parseElems (fuel : Nat) (s : List Nat) : Option (List JsonVal × List Nat) :=
  match fuel with
  | 0 => none
  | fuel + 1 =>
    match parseValue fuel s with
    | none => none
    | some (v, r) =>
      match skipWs r with
      | 44 :: r2 => (parseElems fuel r2).map (fun p => (v :: p.1, p.2))
      | 93 :: r2 => some ([v], r2)
      | _ => none
termination_by structural fuel

end

/-- `JSON.parse` of a whole document (what `express.json()` applies to
the raw request body). -/
def parseJson (raw : List Nat) : Option JsonVal :=
  match parseValue (raw.length + 1) raw with
  | some (v, r) => if skipWs r = [] then some v else none
  | none => none

/-! ## Call tracker, identity mapping and the webhook handler
(src/server.js:27, 51-57, 118-191) -/

/-- One tracked active call (the record stored by `activeCalls.set`,
src/server.js:146-150). `userId` and `direction` are whatever
`callData.userId` / `callData.direction` held (possibly `undefined`). -/
structure CallRecord where
  userId : Option JsonVal
  startTime : Nat
  direction : Option JsonVal

/-- The `activeCalls` JS `Map`, as an insertion-ordered association list
with SameValueZero key equality and (invariantly) distinct keys. -/
abbrev Tracker := List (Option JsonVal × CallRecord)

def mapHasKey (m : Tracker) (k : Option JsonVal) : Bool :=
  m.any (fun p => sameValueZero p.1 k)

/-- `Map.prototype.set`: overwrite in place if the key exists, else append. -/
def mapSet (m : Tracker) (k : Option JsonVal) (v : CallRecord) : Tracker :=
  if mapHasKey m k then m.map (fun p => if sameValueZero p.1 k then (p.1, v) else p)
  else m ++ [(k, v)]

/-- `Map.prototype.get`. -/
def mapGet (m : Tracker) (k : Option JsonVal) : Option CallRecord :=
  (m.find? (fun p => sameValueZero p.1 k)).map (·.2)

/-- `Map.prototype.delete` (removes the entry if present; a no-op otherwise). -/
def mapDelete (m : Tracker) (k : Option JsonVal) : Tracker :=
  m.filter (fun p => !sameValueZero p.1 k)

/-- `Map.prototype.size`. -/
def mapSize (m : Tracker) : Nat := m.length

/-- The tracker transition performed by the `call.ringing` branch
(src/server.js:146-150): insert/overwrite the record for `callId`. -/
def onCallStarted (m : Tracker) (callId providerUserId direction : Option JsonVal)
    (now : Nat) : Tracker :=
  mapSet m callId ⟨providerUserId, now, direction⟩

/-- The tracker transition performed by the `call.completed` branch
(src/server.js:169-170): read the record for `callId` and remove it. -/
def onCallCompleted (m : Tracker) (callId : Option JsonVal) :
    Option CallRecord × Tracker :=
  (mapGet m callId, mapDelete m callId)

/-- The hardcoded identity mapping (src/server.js:51-57). -/
def userMapping : List (List Nat × List Nat) :=
  [(bytes "US2gwvMWKA", bytes "Tyler@WindsorM.com")]

/-- `getTeamsUserFromOpenPhoneUser`: look the provider user id up in the
static table. A non-string (or absent) id is not a key of the table. -/
def getTeamsUserFromOpenPhoneUser (openPhoneUserId : Option JsonVal) : Option (List Nat) :=
  match openPhoneUserId with
  | some (.str s) => (userMapping.find? (fun p => p.1 == s)).map (·.2)
  | _ => none

/-- A presence-setter invocation: (user email, availability, activity). -/
abbrev PresenceCall := List Nat × List Nat × List Nat

/-- The observable outcome of one `POST /webhook/openphone` request:
HTTP status, final tracker state, and the `setTeamsPresence`
invocations attempted during the request. -/
structure HandlerOutcome where
  status : Nat
  calls : Tracker
  presence : List PresenceCall

/-- The event-processing part of the webhook handler body
(src/server.js:132-184), as run inside the `try` block. `downstreamOk`
abstracts the outbound calls (`getTeamsAccessToken` + the Graph presence
request): when `false`, `setTeamsPresence` throws after being invoked.
`.error` carries the state at the point the JS code throws; the
(unused) read `activeCalls.get(callId)` of the completed branch is
dropped. -/
def processEvent (body : JsonVal) (now : Nat) (downstreamOk : Bool) (calls0 : Tracker) :
    Except (Tracker × List PresenceCall) (Tracker × List PresenceCall) :=
  match jsGet (some body) (bytes "type") with
  | .error _ => .error (calls0, [])
  | .ok etype =>
    if jsTypeIs etype (bytes "call.ringing") then
      match jsGet (some body) (bytes "data") with
      | .error _ => .error (calls0, [])
      | .ok dataV =>
        match jsGet dataV (bytes "object") with
        | .error _ => .error (calls0, [])
        | .ok callData =>
          match jsGet callData (bytes "userId"), jsGet callData (bytes "id"),
                jsGet callData (bytes "direction") with
          | .ok openPhoneUserId, .ok callId, .ok direction =>
            let calls1 := mapSet calls0 callId ⟨openPhoneUserId, now, direction⟩
            match getTeamsUserFromOpenPhoneUser openPhoneUserId with
            | some teamsUser =>
              let pc := [(teamsUser, bytes "Busy", bytes "InACall")]
              if downstreamOk then .ok (calls1, pc) else .error (calls1, pc)
            | none => .ok (calls1, [])
          | _, _, _ => .error (calls0, [])
    else if jsTypeIs etype (bytes "call.completed") then
      match jsGet (some body) (bytes "data") with
      | .error _ => .error (calls0, [])
      | .ok dataV =>
        match jsGet dataV (bytes "object") with
        | .error _ => .error (calls0, [])
        | .ok callData =>
          match jsGet callData (bytes "id"), jsGet callData (bytes "userId") with
          | .ok callId, .ok openPhoneUserId =>
            let calls1 := mapDelete calls0 callId
            match getTeamsUserFromOpenPhoneUser openPhoneUserId with
            | some teamsUser =>
              let pc := [(teamsUser, bytes "Available", bytes "Available")]
              if downstreamOk then .ok (calls1, pc) else .error (calls1, pc)
            | none => .ok (calls1, [])
          | _, _ => .error (calls0, [])
    else .ok (calls0, [])

/-- `app.post('/webhook/openphone')` (src/server.js:118-191).
`secretEnv` is `process.env.OPENPHONE_WEBHOOK_SECRET`; when truthy the
handler verifies the signature over `JSON.stringify(req.body)` and
answers 401 on failure. The surrounding `try`/`catch` converts any
throw (including `timingSafeEqual`'s length error and downstream
failures) into a 500 response; otherwise the handler answers 200. -/
def webhookHandler (secretEnv signatureHeader : Option (List Nat)) (body : JsonVal)
    (now : Nat) (downstreamOk : Bool) (calls0 : Tracker) : HandlerOutcome :=
  if jsFalsyStr secretEnv then
    match processEvent body now downstreamOk calls0 with
    | .ok (c, p) => ⟨200, c, p⟩
    | .error (c, p) => ⟨500, c, p⟩
  else
    match verifyOpenPhoneSignature (stringifyJson body) signatureHeader secretEnv with
    | .error _ => ⟨500, calls0, []⟩
    | .ok false => ⟨401, calls0, []⟩
    | .ok true =>
      match processEvent body now downstreamOk calls0 with
      | .ok (c, p) => ⟨200, c, p⟩
      | .error (c, p) => ⟨500, c, p⟩

/-- The canonical four-field OpenPhone signature header:
`field0;field1;timestamp;digest`. -/
def mkSigHeader (f0 f1 ts d : List Nat) : List Nat :=
  f0 ++ 59 :: (f1 ++ 59 :: (ts ++ 59 :: d))

/-- The digest the verifier computes: base64 of the HMAC-SHA256, keyed
by the base64-decoded secret, over `timestamp ++ "." ++ payload`. -/
def digestOf (sec ts payload : List Nat) : List Nat :=
  base64Encode (hmacSha256 (base64Decode sec) (ts ++ 46 :: payload))

/-- A well-formed `call.ringing` event body with the given call id and
provider user id. -/
def ringingBodyOf (cid u : List Nat) : JsonVal :=
  .obj [(bytes "type", .str (bytes "call.ringing")),
        (bytes "data", .obj [(bytes "object",
          .obj [(bytes "id", .str cid), (bytes "userId", .str u)])])]

/-- A well-formed `call.completed` event body with the given call id and
provider user id. -/
def completedBodyOf (cid u : List Nat) : JsonVal :=
  .obj [(bytes "type", .str (bytes "call.completed")),
        (bytes "data", .obj [(bytes "object",
          .obj [(bytes "id", .str cid), (bytes "userId", .str u)])])]

/-- A byte string free of the field separator `;` (byte 59). -/
def semiFree (l : List Nat) : Prop := ∀ x ∈ l, x ≠ 59

instance (l : List Nat) : Decidable (semiFree l) :=
  inferInstanceAs (Decidable (∀ x ∈ l, x ≠ 59))

/-- Membership in the base64 output alphabet (including the `=` pad). -/
def b64Alpha (x : Nat) : Prop :=
  x = 43 ∨ x = 47 ∨ (48 ≤ x ∧ x ≤ 57) ∨ x = 61 ∨ (65 ≤ x ∧ x ≤ 90) ∨ (97 ≤ x ∧ x ≤ 122)

/-- The raw request body `{ "a": 1 }` (whitespace included), used to
exhibit the gap between the received bytes and their re-serialization. -/
def c4RawBody : List Nat := [123, 32, 34, 97, 34, 58, 32, 49, 32, 125]

/-! ## Helper lemmas -/

theorem toBytesBE_length (len n : Nat) : (toBytesBE len n).length = len := by
  simp [toBytesBE]

theorem sha256_length (msg : List Nat) : (sha256 msg).length = 32 := by
  simp [sha256, toBytesBE_length]

theorem hmacSha256_length (key msg : List Nat) : (hmacSha256 key msg).length = 32 := by
  simp [hmacSha256, sha256_length]

theorem base64Encode_length : ∀ l : List Nat,
    (base64Encode l).length = 4 * ((l.length + 2) / 3)
  | _ :: _ :: _ :: rest => by
      simp [base64Encode, base64Encode_length rest]; omega
  | [_, _] => by simp [base64Encode]
  | [_] => by simp [base64Encode]
  | [] => by simp [base64Encode]

/-- The digest string the verifier computes is always 44 bytes. -/
theorem digestOf_length (sec ts payload : List Nat) : (digestOf sec ts payload).length = 44 := by
  simp [digestOf, base64Encode_length, hmacSha256_length]

theorem b64Char_alpha (n : Nat) : b64Alpha (b64Char n) := by
  unfold b64Char b64Alpha; split_ifs <;> omega

theorem base64Encode_alpha : ∀ l : List Nat, ∀ x ∈ base64Encode l, b64Alpha x
  | a :: b :: c :: rest => by
      intro x hx
      simp only [base64Encode, List.mem_cons] at hx
      rcases hx with h | h | h | h | h
      · exact h ▸ b64Char_alpha _
      · exact h ▸ b64Char_alpha _
      · exact h ▸ b64Char_alpha _
      · exact h ▸ b64Char_alpha _
      · exact base64Encode_alpha rest x h
  | [a, b] => by
      intro x hx
      simp only [base64Encode, List.mem_cons, List.not_mem_nil, or_false] at hx
      rcases hx with h | h | h | h
      · exact h ▸ b64Char_alpha _
      · exact h ▸ b64Char_alpha _
      · exact h ▸ b64Char_alpha _
      · exact h ▸ (by unfold b64Alpha; omega)
  | [a] => by
      intro x hx
      simp only [base64Encode, List.mem_cons, List.not_mem_nil, or_false] at hx
      rcases hx with h | h | h | h
      · exact h ▸ b64Char_alpha _
      · exact h ▸ b64Char_alpha _
      · exact h ▸ (by unfold b64Alpha; omega)
      · exact h ▸ (by unfold b64Alpha; omega)
  | [] => by intro x hx; simp [base64Encode] at hx

theorem b64Alpha_ne_semi {x : Nat} (h : b64Alpha x) : x ≠ 59 := by
  unfold b64Alpha at h; omega

/-- A computed digest never contains the field separator. -/
theorem digestOf_semiFree (sec ts payload : List Nat) : semiFree (digestOf sec ts payload) :=
  fun x hx => b64Alpha_ne_semi (base64Encode_alpha _ x hx)

theorem splitOnSemi_no_semi : ∀ l : List Nat, semiFree l → splitOnSemi l = [l]
  | [], _ => rfl
  | c :: rest, h => by
      have hc : ¬(c = 59) := h c (by simp)
      have ih := splitOnSemi_no_semi rest (fun x hx => h x (by simp [hx]))
      simp [splitOnSemi, hc, ih]

theorem splitOnSemi_append : ∀ l r : List Nat, semiFree l →
    splitOnSemi (l ++ 59 :: r) = l :: splitOnSemi r
  | [], r, _ => by simp [splitOnSemi]
  | c :: rest, r, h => by
      have hc : ¬(c = 59) := h c (by simp)
      have ih := splitOnSemi_append rest r (fun x hx => h x (by simp [hx]))
      simp only [List.cons_append, splitOnSemi, hc, if_false, List.append_eq, ih]

/-- Splitting a canonical four-field header recovers its fields. -/
theorem splitOnSemi_mkSigHeader (f0 f1 ts d : List Nat)
    (h0 : semiFree f0) (h1 : semiFree f1) (h2 : semiFree ts) (h3 : semiFree d) :
    splitOnSemi (mkSigHeader f0 f1 ts d) = [f0, f1, ts, d] := by
  unfold mkSigHeader
  rw [splitOnSemi_append _ _ h0, splitOnSemi_append _ _ h1,
      splitOnSemi_append _ _ h2, splitOnSemi_no_semi _ h3]

theorem timingSafeEqual_len_ne (a b : List Nat) (h : a.length ≠ b.length) :
    timingSafeEqual a b = .error () := by
  simp [timingSafeEqual, h]

theorem mkSigHeader_falsy (f0 f1 ts d : List Nat) :
    jsFalsyStr (some (mkSigHeader f0 f1 ts d)) = false := by
  cases f0 <;> rfl

/-- On a non-empty secret and a canonical four-field header, the
verifier reduces to the timing-safe comparison of the provided digest
against the recomputed one. -/
theorem verify_parsed (payload f0 f1 ts d sec : List Nat)
    (hsec : sec ≠ []) (h0 : semiFree f0) (h1 : semiFree f1) (h2 : semiFree ts)
    (h3 : semiFree d) :
    verifyOpenPhoneSignature payload (some (mkSigHeader f0 f1 ts d)) (some sec)
      = timingSafeEqual d (digestOf sec ts payload) := by
  have hfs : jsFalsyStr (some sec) = false := by
    cases sec with
    | nil => exact absurd rfl hsec
    | cons a as => rfl
  unfold verifyOpenPhoneSignature
  rw [mkSigHeader_falsy, hfs]
  simp only [Bool.or_self, Bool.false_eq_true, if_false, Option.getD_some,
    splitOnSemi_mkSigHeader f0 f1 ts d h0 h1 h2 h3]
  simp [digestOf]

/-- The verifier accepts the digest it itself computes. -/
theorem verify_correct_digest (payload f0 f1 ts sec : List Nat)
    (hsec : sec ≠ []) (h0 : semiFree f0) (h1 : semiFree f1) (h2 : semiFree ts) :
    verifyOpenPhoneSignature payload
      (some (mkSigHeader f0 f1 ts (digestOf sec ts payload))) (some sec) = .ok true := by
  rw [verify_parsed payload f0 f1 ts _ sec hsec h0 h1 h2 (digestOf_semiFree sec ts payload)]
  simp [timingSafeEqual]

theorem sameValueZero_refl_str (s : List Nat) :
    sameValueZero (some (.str s)) (some (.str s)) = true := by
  simp [sameValueZero]

/-- Deleting a key that `get` does not find leaves the map unchanged. -/
theorem mapDelete_of_get_none (m : Tracker) (k : Option JsonVal)
    (h : mapGet m k = none) : mapDelete m k = m := by
  have hfind : ∀ p ∈ m, ¬(sameValueZero p.1 k = true) :=
    List.find?_eq_none.mp (by simpa [mapGet] using h)
  unfold mapDelete
  rw [List.filter_eq_self]
  intro p hp
  simp [hfind p hp]

/-- With no secret configured the handler skips verification and wraps
`processEvent` in the `try`/`catch`. -/
theorem webhookHandler_noSecret (sig : Option (List Nat)) (body : JsonVal)
    (now : Nat) (dOk : Bool) (calls0 : Tracker) :
    webhookHandler none sig body now dOk calls0 =
      match processEvent body now dOk calls0 with
      | .ok (c, p) => ⟨200, c, p⟩
      | .error (c, p) => ⟨500, c, p⟩ := rfl

/-- With a non-empty secret the handler first verifies the signature
over the re-serialized body. -/
theorem webhookHandler_withSecret (sec : List Nat) (sig : Option (List Nat))
    (body : JsonVal) (now : Nat) (dOk : Bool) (calls0 : Tracker) (hsec : sec ≠ []) :
    webhookHandler (some sec) sig body now dOk calls0 =
      match verifyOpenPhoneSignature (stringifyJson body) sig (some sec) with
      | .error _ => ⟨500, calls0, []⟩
      | .ok false => ⟨401, calls0, []⟩
      | .ok true =>
        match processEvent body now dOk calls0 with
        | .ok (c, p) => ⟨200, c, p⟩
        | .error (c, p) => ⟨500, c, p⟩ := by
  cases sec with
  | nil => exact absurd rfl hsec
  | cons a as => rfl

/-- `processEvent` on a well-formed ringing body, reduced to the
identity-mapping decision. -/
theorem processEvent_ringing (cid u : List Nat) (now : Nat) (dOk : Bool) (calls0 : Tracker) :
    processEvent (ringingBodyOf cid u) now dOk calls0 =
      match getTeamsUserFromOpenPhoneUser (some (.str u)) with
      | some teamsUser =>
          if dOk then
            .ok (mapSet calls0 (some (.str cid)) ⟨some (.str u), now, none⟩,
                 [(teamsUser, bytes "Busy", bytes "InACall")])
          else
            .error (mapSet calls0 (some (.str cid)) ⟨some (.str u), now, none⟩,
                    [(teamsUser, bytes "Busy", bytes "InACall")])
      | none => .ok (mapSet calls0 (some (.str cid)) ⟨some (.str u), now, none⟩, []) := rfl

/-- `processEvent` on a well-formed completed body, reduced to the
identity-mapping decision. -/
theorem processEvent_completed (cid u : List Nat) (now : Nat) (dOk : Bool) (calls0 : Tracker) :
    processEvent (completedBodyOf cid u) now dOk calls0 =
      match getTeamsUserFromOpenPhoneUser (some (.str u)) with
      | some teamsUser =>
          if dOk then
            .ok (mapDelete calls0 (some (.str cid)),
                 [(teamsUser, bytes "Available", bytes "Available")])
          else
            .error (mapDelete calls0 (some (.str cid)),
                    [(teamsUser, bytes "Available", bytes "Available")])
      | none => .ok (mapDelete calls0 (some (.str cid)), []) := rfl

/-! ## Claims -/

/-- C1 (code evaluation at the failing input): with the signature header
absent, `verifyOpenPhoneSignature` returns `.ok true` for every payload
and every secret — including non-empty ones — because the guard
`if (!signature || !secret) return true` treats a missing header like a
missing secret. The claim (and src/server.js's own log message at the
guard, which attributes this branch to "webhook secret not configured")
say a configured secret must make a missing header fail verification. -/
theorem c1_missing_header_accepted (payload sec : List Nat) :
    verifyOpenPhoneSignature payload none (some sec) = .ok true := rfl

/-- C10: with no secret configured — `undefined` or the empty string —
the verifier returns true for every payload and every signature header,
including an absent one. -/
theorem c10_no_secret_verify_true (payload : List Nat) (sig : Option (List Nat)) :
    verifyOpenPhoneSignature payload sig none = .ok true ∧
    verifyOpenPhoneSignature payload sig (some []) = .ok true := by
  constructor <;> simp [verifyOpenPhoneSignature, jsFalsyStr]

/-- C3 counterexample: a well-formed four-field header whose digest
field has 3 bytes (the computed digest has 44) makes the verifier throw
(`timingSafeEqual`'s length error, modelled as `.error ()`) instead of
returning false. -/
theorem c3_counterexample :
    verifyOpenPhoneSignature (bytes "p") (some (mkSigHeader [97] [98] [49] [120, 121, 122]))
      (some (bytes "sec")) = .error () := by
  rw [verify_parsed _ _ _ _ _ _ (by decide) (by decide) (by decide) (by decide) (by decide)]
  exact timingSafeEqual_len_ne _ _ (by rw [digestOf_length]; decide)

/-- C3 amended: for every payload, non-empty secret and well-formed
four-field signature header whose provided digest's byte length differs
from the 44 bytes of the computed HMAC-SHA256 base64 digest, the
verifier raises an exception (which the webhook handler's catch turns
into a 500), rather than returning false. -/
theorem c3_amended (payload f0 f1 ts d sec : List Nat)
    (hsec : sec ≠ []) (h0 : semiFree f0) (h1 : semiFree f1) (h2 : semiFree ts)
    (h3 : semiFree d) (hlen : d.length ≠ 44) :
    verifyOpenPhoneSignature payload (some (mkSigHeader f0 f1 ts d)) (some sec) = .error () := by
  rw [verify_parsed payload f0 f1 ts d sec hsec h0 h1 h2 h3]
  exact timingSafeEqual_len_ne _ _ (by rw [digestOf_length]; exact hlen)

/-- C3 amended, witnessed at a concrete input: header `a;b;1;x` with a
one-byte digest against secret `sec`. -/
theorem c3_amended_witness :
    (bytes "sec" ≠ [] ∧ semiFree [97] ∧ semiFree [98] ∧ semiFree [49] ∧
      semiFree [120] ∧ ([120] : List Nat).length ≠ 44) ∧
    verifyOpenPhoneSignature [113] (some (mkSigHeader [97] [98] [49] [120]))
      (some (bytes "sec")) = .error () :=
  ⟨⟨by decide, by decide, by decide, by decide, by decide, by decide⟩,
   c3_amended [113] [97] [98] [49] [120] (bytes "sec") (by decide) (by decide)
     (by decide) (by decide) (by decide) (by decide)⟩

/-- C8: starting a call on the empty tracker and immediately completing
the same (string) call id returns exactly the record the start created
and leaves the tracker of size 0; and completing a call id that `get`
does not find returns absent and leaves the tracker untouched (no
error). -/
theorem c8_tracker_roundtrip (cid : List Nat) (u d : Option JsonVal) (now : Nat)
    (m : Tracker) (hmiss : mapGet m (some (.str cid)) = none) :
    (onCallCompleted (onCallStarted [] (some (.str cid)) u d now) (some (.str cid))).1
        = some ⟨u, now, d⟩ ∧
    mapSize (onCallCompleted (onCallStarted [] (some (.str cid)) u d now) (some (.str cid))).2
        = 0 ∧
    onCallCompleted m (some (.str cid)) = (none, m) := by
  refine ⟨?_, ?_, ?_⟩
  · simp [onCallStarted, onCallCompleted, mapSet, mapHasKey, mapGet, sameValueZero_refl_str]
  · simp [onCallStarted, onCallCompleted, mapSet, mapHasKey, mapDelete, mapSize,
      sameValueZero_refl_str]
  · unfold onCallCompleted
    rw [hmiss, mapDelete_of_get_none m _ hmiss]

/-- C8 witnessed at a concrete input: call id `c1`, empty tracker for
the never-started side. -/
theorem c8_tracker_roundtrip_witness :
    mapGet [] (some (.str (bytes "c1"))) = none ∧
    ((onCallCompleted (onCallStarted [] (some (.str (bytes "c1"))) none none 7)
        (some (.str (bytes "c1")))).1 = some ⟨none, 7, none⟩ ∧
      mapSize (onCallCompleted (onCallStarted [] (some (.str (bytes "c1"))) none none 7)
        (some (.str (bytes "c1")))).2 = 0 ∧
      onCallCompleted [] (some (.str (bytes "c1"))) = (none, [])) :=
  ⟨rfl, c8_tracker_roundtrip (bytes "c1") none none 7 [] rfl⟩

/-- C4 (code evaluation at the failing input): the raw received body
`{ "a": 1 }` parses (as `express.json()` does) to an object whose
re-serialization `JSON.stringify(req.body)` is `{"a":1}` — a different
byte string. The handler signs the re-serialization (src/server.js:121),
so the byte string it verifies is not the raw body as received, and a
provider signature computed over the raw bytes cannot match. -/
theorem c4_restringify_differs :
    parseJson c4RawBody = some (.obj [(bytes "a", .num 1)]) ∧
    stringifyJson (.obj [(bytes "a", .num 1)]) = [123, 34, 97, 34, 58, 49, 125] ∧
    stringifyJson (.obj [(bytes "a", .num 1)]) ≠ c4RawBody := by
  refine ⟨rfl, rfl, ?_⟩
  decide

/-- C5 counterexample: the `call.ringing` event whose `data.object`
carries only `userId` (the expected `id` field is missing, so the event
is malformed) is not treated as a no-op: the handler inserts a tracker
record under the undefined key (the tracker grows from empty to one
entry) AND invokes the presence setter with (Busy, InACall), answering
200 — refuting both the no-tracker-mutation and the
no-presence-setter-call clauses. -/
theorem c5_counterexample :
    ((webhookHandler none none
        (.obj [(bytes "type", .str (bytes "call.ringing")),
               (bytes "data", .obj [(bytes "object",
                 .obj [(bytes "userId", .str (bytes "US2gwvMWKA"))])])])
        0 true []).calls).length = 1 ∧
    (webhookHandler none none
        (.obj [(bytes "type", .str (bytes "call.ringing")),
               (bytes "data", .obj [(bytes "object",
                 .obj [(bytes "userId", .str (bytes "US2gwvMWKA"))])])])
        0 true []).presence
      = [(bytes "Tyler@WindsorM.com", bytes "Busy", bytes "InACall")] ∧
    (webhookHandler none none
        (.obj [(bytes "type", .str (bytes "call.ringing")),
               (bytes "data", .obj [(bytes "object",
                 .obj [(bytes "userId", .str (bytes "US2gwvMWKA"))])])])
        0 true []).status = 200 :=
  ⟨rfl, rfl, rfl⟩

/-- C5 amended: malformed events never crash the process, but they are
not uniformly no-ops. An event whose `data` is missing or is not an
object hits the `event.data.object` / `callData.userId` `TypeError`,
which the handler catches: 500 response, tracker untouched, no
presence call. An event whose `data.object` is present but lacks
expected fields is processed with the missing fields as `undefined`:
a ringing event missing `id` still inserts a tracker record under the
undefined key, and when `userId` is present and mapped the presence
setter is still invoked — (Busy, InACall) on ringing,
(Available, Available) on completed; only a missing or unmapped
`userId` suppresses the presence call. -/
theorem c5_amended (calls0 : Tracker) (now : Nat) (dOk : Bool) :
    webhookHandler none none (.obj [(bytes "type", .str (bytes "call.ringing"))]) now dOk calls0
      = ⟨500, calls0, []⟩ ∧
    webhookHandler none none (.obj [(bytes "type", .str (bytes "call.ringing")),
        (bytes "data", .str (bytes "x"))]) now dOk calls0 = ⟨500, calls0, []⟩ ∧
    webhookHandler none none (.obj [(bytes "type", .str (bytes "call.completed"))]) now dOk calls0
      = ⟨500, calls0, []⟩ ∧
    webhookHandler none none (.obj [(bytes "type", .str (bytes "call.completed")),
        (bytes "data", .str (bytes "x"))]) now dOk calls0 = ⟨500, calls0, []⟩ ∧
    webhookHandler none none (.obj [(bytes "type", .str (bytes "call.ringing")),
        (bytes "data", .obj [(bytes "object", .obj [])])]) now dOk calls0
      = ⟨200, mapSet calls0 none ⟨none, now, none⟩, []⟩ ∧
    webhookHandler none none (.obj [(bytes "type", .str (bytes "call.completed")),
        (bytes "data", .obj [(bytes "object", .obj [])])]) now dOk calls0
      = ⟨200, mapDelete calls0 none, []⟩ ∧
    webhookHandler none none (.obj [(bytes "type", .str (bytes "call.ringing")),
        (bytes "data", .obj [(bytes "object",
          .obj [(bytes "userId", .str (bytes "US2gwvMWKA"))])])]) now true calls0
      = ⟨200, mapSet calls0 none ⟨some (.str (bytes "US2gwvMWKA")), now, none⟩,
         [(bytes "Tyler@WindsorM.com", bytes "Busy", bytes "InACall")]⟩ ∧
    webhookHandler none none (.obj [(bytes "type", .str (bytes "call.completed")),
        (bytes "data", .obj [(bytes "object",
          .obj [(bytes "userId", .str (bytes "US2gwvMWKA"))])])]) now true calls0
      = ⟨200, mapDelete calls0 none,
         [(bytes "Tyler@WindsorM.com", bytes "Available", bytes "Available")]⟩ :=
  ⟨rfl, rfl, rfl, rfl, rfl, rfl, rfl, rfl⟩

/-- C2 counterexample: an event that passes signature verification (the
secret is configured; the verifier accepts) whose downstream presence
update fails is answered with 500, not 200: the `setTeamsPresence`
rethrow propagates to the handler's catch-all. -/
theorem c2_counterexample :
    (webhookHandler (some (bytes "c2VjcmV0")) none
        (ringingBodyOf (bytes "c1") (bytes "US2gwvMWKA")) 0 false []).status = 500 := rfl

/-- C2 amended: for every event that passes signature verification
(here: a correctly signed well-formed ringing or completed event for a
mapped user), a failing outbound token acquisition or presence update
makes the webhook handler respond 500 — the generic internal-fault
path — not 200. Only signature-verification failure yields 401. -/
theorem c2_amended (calls0 : Tracker) (cid u email sec ts : List Nat)
    (hsec : sec ≠ []) (hts : semiFree ts)
    (hmap : getTeamsUserFromOpenPhoneUser (some (.str u)) = some email) :
    (webhookHandler (some sec)
        (some (mkSigHeader [] [] ts (digestOf sec ts (stringifyJson (ringingBodyOf cid u)))))
        (ringingBodyOf cid u) 0 false calls0).status = 500 ∧
    (webhookHandler (some sec)
        (some (mkSigHeader [] [] ts (digestOf sec ts (stringifyJson (completedBodyOf cid u)))))
        (completedBodyOf cid u) 0 false calls0).status = 500 := by
  constructor
  · rw [webhookHandler_withSecret _ _ _ _ _ _ hsec,
      verify_correct_digest _ [] [] ts sec hsec (by decide) (by decide) hts,
      processEvent_ringing, hmap]
    rfl
  · rw [webhookHandler_withSecret _ _ _ _ _ _ hsec,
      verify_correct_digest _ [] [] ts sec hsec (by decide) (by decide) hts,
      processEvent_completed, hmap]
    rfl

/-- C2 amended, witnessed at concrete inputs: secret `s`, timestamp `1`,
the mapped user `US2gwvMWKA`, failing downstream. -/
theorem c2_amended_witness :
    (bytes "s" ≠ [] ∧ semiFree [49] ∧
      getTeamsUserFromOpenPhoneUser (some (.str (bytes "US2gwvMWKA")))
        = some (bytes "Tyler@WindsorM.com")) ∧
    ((webhookHandler (some (bytes "s"))
        (some (mkSigHeader [] [] [49] (digestOf (bytes "s") [49]
          (stringifyJson (ringingBodyOf (bytes "c1") (bytes "US2gwvMWKA"))))))
        (ringingBodyOf (bytes "c1") (bytes "US2gwvMWKA")) 0 false []).status = 500 ∧
      (webhookHandler (some (bytes "s"))
        (some (mkSigHeader [] [] [49] (digestOf (bytes "s") [49]
          (stringifyJson (completedBodyOf (bytes "c1") (bytes "US2gwvMWKA"))))))
        (completedBodyOf (bytes "c1") (bytes "US2gwvMWKA")) 0 false []).status = 500) :=
  ⟨⟨by decide, by decide, rfl⟩,
   c2_amended [] (bytes "c1") (bytes "US2gwvMWKA") (bytes "Tyler@WindsorM.com") (bytes "s") [49]
     (by decide) (by decide) rfl⟩

/-- Every byte of a computed digest lies in the base64 output alphabet. -/
theorem digestOf_getD_alpha (sec ts payload : List Nat) (i : Nat)
    (hi : i < (digestOf sec ts payload).length) :
    b64Alpha ((digestOf sec ts payload).getD i 0) := by
  have hmem : (digestOf sec ts payload).getD i 0 ∈ digestOf sec ts payload := by
    rw [List.getD_eq_getElem _ _ hi]
    exact List.getElem_mem hi
  exact base64Encode_alpha _ _ hmem

/-- C6: a well-formed `call.completed` event whose provider user has an
identity mapping makes the handler issue the (Available, Available)
presence directive unconditionally — the tracker state is arbitrary, so
in particular no record for the call id need exist — and respond 200
(no error from the missing start record). -/
theorem c6_completed_self_healing (calls0 : Tracker) (cid u email : List Nat)
    (hmap : getTeamsUserFromOpenPhoneUser (some (.str u)) = some email) :
    webhookHandler none none (completedBodyOf cid u) 0 true calls0
      = ⟨200, mapDelete calls0 (some (.str cid)),
         [(email, bytes "Available", bytes "Available")]⟩ := by
  rw [webhookHandler_noSecret, processEvent_completed, hmap]
  rfl

/-- C6 witnessed at a concrete input: a lone completed event for the
untracked call `c2` (empty tracker) and the mapped user. -/
theorem c6_completed_self_healing_witness :
    (getTeamsUserFromOpenPhoneUser (some (.str (bytes "US2gwvMWKA")))
        = some (bytes "Tyler@WindsorM.com")) ∧
    webhookHandler none none (completedBodyOf (bytes "c2") (bytes "US2gwvMWKA")) 0 true []
      = ⟨200, mapDelete [] (some (.str (bytes "c2"))),
         [(bytes "Tyler@WindsorM.com", bytes "Available", bytes "Available")]⟩ :=
  ⟨rfl, c6_completed_self_healing [] (bytes "c2") (bytes "US2gwvMWKA")
    (bytes "Tyler@WindsorM.com") rfl⟩

/-- C7: a `call.ringing` event (well-formed, mapped user) yields exactly
the (Busy, InACall) directive; a `call.completed` event yields exactly
(Available, Available); and an event of any other kind — any body whose
`type` is readable but is neither recognized string — yields no
directive, leaves the tracker unchanged, and is answered 200. -/
theorem c7_event_directive_mapping (calls0 : Tracker) (cid u email : List Nat)
    (hmap : getTeamsUserFromOpenPhoneUser (some (.str u)) = some email)
    (body : JsonVal) (t : Option JsonVal)
    (hty : jsGet (some body) (bytes "type") = .ok t)
    (hr : jsTypeIs t (bytes "call.ringing") = false)
    (hc : jsTypeIs t (bytes "call.completed") = false) :
    webhookHandler none none (ringingBodyOf cid u) 0 true calls0
      = ⟨200, mapSet calls0 (some (.str cid)) ⟨some (.str u), 0, none⟩,
         [(email, bytes "Busy", bytes "InACall")]⟩ ∧
    webhookHandler none none (completedBodyOf cid u) 0 true calls0
      = ⟨200, mapDelete calls0 (some (.str cid)),
         [(email, bytes "Available", bytes "Available")]⟩ ∧
    webhookHandler none none body 0 true calls0 = ⟨200, calls0, []⟩ := by
  refine ⟨?_, ?_, ?_⟩
  · rw [webhookHandler_noSecret, processEvent_ringing, hmap]
    rfl
  · rw [webhookHandler_noSecret, processEvent_completed, hmap]
    rfl
  · rw [webhookHandler_noSecret]
    unfold processEvent
    rw [hty]
    simp [hr, hc]

/-- C7 witnessed at concrete inputs: the mapped user, call id `c1`, and
the unrecognized event kind `call.summary`. -/
theorem c7_event_directive_mapping_witness :
    (getTeamsUserFromOpenPhoneUser (some (.str (bytes "US2gwvMWKA")))
        = some (bytes "Tyler@WindsorM.com") ∧
      jsGet (some (.obj [(bytes "type", .str (bytes "call.summary"))])) (bytes "type")
        = .ok (some (.str (bytes "call.summary"))) ∧
      jsTypeIs (some (.str (bytes "call.summary"))) (bytes "call.ringing") = false ∧
      jsTypeIs (some (.str (bytes "call.summary"))) (bytes "call.completed") = false) ∧
    (webhookHandler none none (ringingBodyOf (bytes "c1") (bytes "US2gwvMWKA")) 0 true []
        = ⟨200, mapSet [] (some (.str (bytes "c1")))
              ⟨some (.str (bytes "US2gwvMWKA")), 0, none⟩,
           [(bytes "Tyler@WindsorM.com", bytes "Busy", bytes "InACall")]⟩ ∧
      webhookHandler none none (completedBodyOf (bytes "c1") (bytes "US2gwvMWKA")) 0 true []
        = ⟨200, mapDelete [] (some (.str (bytes "c1"))),
           [(bytes "Tyler@WindsorM.com", bytes "Available", bytes "Available")]⟩ ∧
      webhookHandler none none (.obj [(bytes "type", .str (bytes "call.summary"))]) 0 true []
        = ⟨200, [], []⟩) :=
  ⟨⟨rfl, rfl, rfl, rfl⟩,
   c7_event_directive_mapping [] (bytes "c1") (bytes "US2gwvMWKA")
     (bytes "Tyler@WindsorM.com") rfl
     (.obj [(bytes "type", .str (bytes "call.summary"))])
     (some (.str (bytes "call.summary"))) rfl rfl rfl⟩

/-- C9 counterexample: a single-byte mutation of the signature header
need not flip verification to false. The verifier ignores the first two
header fields, so the header `hm;v;1;<digest>` and its first-byte
mutation `xm;v;1;<digest>` (byte 104 changed to 120) both verify as
true for the same payload and secret, with the correctly computed
digest in field 3. -/
theorem c9_counterexample :
    verifyOpenPhoneSignature [112]
      (some (mkSigHeader [104, 109] [118] [49] (digestOf (bytes "sec") [49] [112])))
      (some (bytes "sec")) = .ok true ∧
    verifyOpenPhoneSignature [112]
      (some (mkSigHeader [120, 109] [118] [49] (digestOf (bytes "sec") [49] [112])))
      (some (bytes "sec")) = .ok true :=
  ⟨verify_correct_digest [112] [104, 109] [118] [49] (bytes "sec") (by decide) (by decide)
     (by decide) (by decide),
   verify_correct_digest [112] [120, 109] [118] [49] (bytes "sec") (by decide) (by decide)
     (by decide) (by decide)⟩

/-- C9 amended: with a well-formed header carrying the correctly
computed digest, verification returns true; a single-byte mutation
*inside the digest field* (to a different, non-separator byte) flips it
to false; and a payload change flips it to false whenever the changed
payload's digest differs from the original one (i.e., short of an
HMAC-SHA256 collision). Mutations confined to the two ignored leading
header fields do not change the result (see the counterexample). -/
theorem c9_amended (payload payload2 f0 f1 ts sec : List Nat) (i b : Nat)
    (hsec : sec ≠ []) (h0 : semiFree f0) (h1 : semiFree f1) (h2 : semiFree ts)
    (hi : i < (digestOf sec ts payload).length)
    (hb : b ≠ (digestOf sec ts payload).getD i 0) (hb59 : b ≠ 59)
    (hcol : digestOf sec ts payload2 ≠ digestOf sec ts payload) :
    verifyOpenPhoneSignature payload
      (some (mkSigHeader f0 f1 ts (digestOf sec ts payload))) (some sec) = .ok true ∧
    verifyOpenPhoneSignature payload
      (some (mkSigHeader f0 f1 ts ((digestOf sec ts payload).set i b))) (some sec)
      = .ok false ∧
    verifyOpenPhoneSignature payload2
      (some (mkSigHeader f0 f1 ts (digestOf sec ts payload))) (some sec) = .ok false := by
  refine ⟨verify_correct_digest payload f0 f1 ts sec hsec h0 h1 h2, ?_, ?_⟩
  · have hd : semiFree ((digestOf sec ts payload).set i b) := by
      intro x hx
      rcases List.mem_or_eq_of_mem_set hx with h | h
      · exact digestOf_semiFree sec ts payload x h
      · exact h ▸ hb59
    rw [verify_parsed payload f0 f1 ts _ sec hsec h0 h1 h2 hd]
    have hne : (digestOf sec ts payload).set i b ≠ digestOf sec ts payload := by
      intro he
      have hg1 : ((digestOf sec ts payload).set i b).getD i 0
          = (digestOf sec ts payload).getD i 0 := by rw [he]
      have hg2 : ((digestOf sec ts payload).set i b).getD i 0 = b := by
        rw [List.getD_eq_getElem _ _ (by rw [List.length_set]; exact hi)]
        exact List.getElem_set_self _
      exact hb (by rw [← hg2, hg1])
    unfold timingSafeEqual
    rw [if_pos (List.length_set ..)]
    simp only [Except.ok.injEq]
    exact beq_eq_false_iff_ne.mpr hne
  · rw [verify_parsed payload2 f0 f1 ts _ sec hsec h0 h1 h2
      (digestOf_semiFree sec ts payload)]
    unfold timingSafeEqual
    rw [if_pos (by rw [digestOf_length, digestOf_length])]
    simp only [Except.ok.injEq]
    exact beq_eq_false_iff_ne.mpr (Ne.symm hcol)

set_option maxRecDepth 100000 in
/-- C9 amended, witnessed at concrete inputs: secret `sec`, timestamp
`1`, payload `p` (byte 112) against changed payload `q` (byte 113) —
their digests differ, checked by evaluation — header fields `hm` / `v`,
and digest byte 0 mutated to `!` (byte 33, outside the base64
alphabet and not the separator). -/
theorem c9_amended_witness :
    (bytes "sec" ≠ [] ∧ semiFree [104, 109] ∧ semiFree [118] ∧ semiFree [49] ∧
      0 < (digestOf (bytes "sec") [49] [112]).length ∧
      33 ≠ (digestOf (bytes "sec") [49] [112]).getD 0 0 ∧ (33 : Nat) ≠ 59 ∧
      digestOf (bytes "sec") [49] [113] ≠ digestOf (bytes "sec") [49] [112]) ∧
    (verifyOpenPhoneSignature [112]
        (some (mkSigHeader [104, 109] [118] [49] (digestOf (bytes "sec") [49] [112])))
        (some (bytes "sec")) = .ok true ∧
      verifyOpenPhoneSignature [112]
        (some (mkSigHeader [104, 109] [118] [49]
          ((digestOf (bytes "sec") [49] [112]).set 0 33))) (some (bytes "sec")) = .ok false ∧
      verifyOpenPhoneSignature [113]
        (some (mkSigHeader [104, 109] [118] [49] (digestOf (bytes "sec") [49] [112])))
        (some (bytes "sec")) = .ok false) := by
  have hi : 0 < (digestOf (bytes "sec") [49] [112]).length := by
    rw [digestOf_length]; decide
  have hb : 33 ≠ (digestOf (bytes "sec") [49] [112]).getD 0 0 := by
    have h := digestOf_getD_alpha (bytes "sec") [49] [112] 0 hi
    unfold b64Alpha at h
    omega
  have hcol : digestOf (bytes "sec") [49] [113] ≠ digestOf (bytes "sec") [49] [112] := by
    decide
  exact ⟨⟨by decide, by decide, by decide, by decide, hi, hb, by decide, hcol⟩,
    c9_amended [112] [113] [104, 109] [118] [49] (bytes "sec") 0 33
      (by decide) (by decide) (by decide) (by decide) hi hb (by decide) hcol⟩
